import Mathlib

/-!
Verification of the SOUL_SENSE_EXAM identity subsystem against its design
specification.

The development shallowly embeds the relevant Python sources:

* `backend/fastapi/api/middleware/rate_limiter.py` — the sliding-window
  rate limiter (`RateLimiter.is_rate_limited`);
* `backend/fastapi/api/services/mock_auth_service.py` — the mock
  authentication service (`MockAuthService`), whose module-level dicts
  `MOCK_USERS`, `MOCK_PROFILES`, `MOCK_OTP_CODES`, `MOCK_REFRESH_TOKENS`
  form the mutable state.

Python dicts are embedded as insertion-ordered association lists with
unique keys; `time.time()` and `datetime.now()` become explicit integer
time parameters; raised exceptions become `Except` errors; randomly
generated tokens (`secrets.token_urlsafe`) become explicit parameters
supplied by the caller.
-/

/-- Lookup in an insertion-ordered association list (dict `get`): first
entry with the given key. Keys of an embedded dict are unique, so first
match is the only match. -/
def lookupA {α : Type} (m : List (String × α)) (k : String) : Option α :=
  match m with
  | [] => none
  | (k', v) :: rest => if k' = k then some v else lookupA rest k

/-- Dict assignment `d[k] = v`: replace in place if the key is present
(Python keeps the insertion position), append at the end otherwise. -/
def setKey {α : Type} (m : List (String × α)) (k : String) (v : α) :
    List (String × α) :=
  match m with
  | [] => [(k, v)]
  | (k', v') :: rest =>
      if k' = k then (k, v) :: rest else (k', v') :: setKey rest k v

/-- Dict deletion `del d[k]`: drop every entry with the key (a dict has at
most one, so this is exact on the embedded states). -/
def delKey {α : Type} (m : List (String × α)) (k : String) :
    List (String × α) :=
  m.filter (fun kv => kv.1 ≠ k)

/-! ## Rate limiter (`rate_limiter.py`) -/

/-- State of one `RateLimiter` instance: configuration plus the
`key -> list of timestamps` cache. The backing `TTLCache` expires a whole
key `window_seconds` after its last write; every timestamp stored under
the key is at most the last write time, hence already outside the window
when TTL eviction would fire, so eviction is semantically invisible next
to the explicit filter and is not modelled. Timestamps are integers
standing for `time.time()` instants. -/
structure RateLimiter where
  max_requests : Nat
  window_seconds : Nat
  cache : List (String × List Int)
deriving DecidableEq, Repr

/-- `RateLimiter.is_rate_limited(key)` at instant `now`: filter the
stored timestamps to those with `now - ts < window_seconds`; if at least
`max_requests` remain, report limited with the residual wait computed
from the oldest valid timestamp and leave the state alone; otherwise
record `now` and report not limited. (With `max_requests = 0` the Python
code would crash indexing an empty list; the embedding returns wait 0
there, and every deployed limiter has `max_requests ≥ 5`.) -/
def is_rate_limited (rl : RateLimiter) (now : Int) (key : String) :
    (Bool × Int) × RateLimiter :=
  let timestamps := (lookupA rl.cache key).getD []
  let valid_timestamps :=
    timestamps.filter (fun ts => now - ts < (rl.window_seconds : Int))
  if rl.max_requests ≤ valid_timestamps.length then
    ((true,
      max 0 ((rl.window_seconds : Int) - (now - valid_timestamps.headD 0))),
     rl)
  else
    ((false, 0),
     { rl with cache := setKey rl.cache key (valid_timestamps ++ [now]) })

/-- `login_limiter = RateLimiter(max_requests=10, window_seconds=60)`,
with an initially empty cache. -/
def login_limiter : RateLimiter :=
  { max_requests := 10, window_seconds := 60, cache := [] }

/-- Run a sequence of checks `(time, key)` against a limiter, keeping
only the final state. -/
def runCalls (rl : RateLimiter) (calls : List (Int × String)) : RateLimiter :=
  match calls with
  | [] => rl
  | (t, k) :: rest => runCalls (is_rate_limited rl t k).2 rest

/-- Number of stored timestamps for `key` still inside the trailing
window at instant `now`. -/
def validCount (rl : RateLimiter) (now : Int) (key : String) : Nat :=
  (((lookupA rl.cache key).getD []).filter
    (fun ts => now - ts < (rl.window_seconds : Int))).length

/-! ## Mock authentication service (`mock_auth_service.py`) -/

/-- Python `str.lower()` on the identifiers the service handles:
character-wise ASCII lowercasing. Extensionally this is
`String.toLower` (`String.map Char.toLower`), restated over the
character list so that it evaluates by kernel reduction. -/
def pyLower (s : String) : String :=
  String.mk (s.data.map Char.toLower)

/-- Python `int(...)` on a decoded JWT `sub` claim: parse a nonempty
all-digit string, any other shape raising `ValueError` (embedded as
`none`; forms such as a signed or whitespace-padded numeral that Python
would also accept do not occur in tokens the service itself mints). -/
def parseNatDigits : List Char → Nat → Option Nat
  | [], acc => some acc
  | c :: rest, acc =>
      if c.isDigit then parseNatDigits rest (acc * 10 + (c.toNat - 48))
      else none

/-- See `parseNatDigits`: `int(s)` for the embedding. -/
def strToNat (s : String) : Option Nat :=
  match s.data with
  | [] => none
  | cs => parseNatDigits cs 0

/-- Entry of the `MOCK_USERS` dict (keyed by lowercase email): the fields
the mock stores for the `User` model. -/
structure UserRec where
  id : Nat
  username : String
  password_hash : String
  is_active : Bool
  is_2fa_enabled : Bool
  created_at : String
  last_login : Option String
deriving DecidableEq, Repr

/-- Entry of the `MOCK_PROFILES` dict (keyed by user id). -/
structure ProfileRec where
  email : String
  first_name : String
  last_name : String
  age : Nat
  gender : String
deriving DecidableEq, Repr

/-- A `User` object as returned by the service: the stored record plus
the `email` attribute some code paths attach after construction. -/
structure AuthUser where
  id : Nat
  username : String
  password_hash : String
  is_active : Bool
  is_2fa_enabled : Bool
  created_at : String
  last_login : Option String
  email : Option String
deriving DecidableEq, Repr

/-- `User(**user_data)`, optionally followed by `user.email = e`. -/
def userOfRec (r : UserRec) (e : Option String) : AuthUser :=
  { id := r.id, username := r.username, password_hash := r.password_hash,
    is_active := r.is_active, is_2fa_enabled := r.is_2fa_enabled,
    created_at := r.created_at, last_login := r.last_login, email := e }

/-- `ErrorCode` values from `api.constants.errors` used by the mock
service (the constants module itself is outside the embedded sources;
only the member the mock raises is needed). -/
inductive ErrorCode where
  | AUTH_INVALID_CREDENTIALS
deriving DecidableEq, Repr

/-- `AuthException(code, message)`. -/
structure AuthException where
  code : ErrorCode
  message : String
deriving DecidableEq, Repr

/-- The module-level mutable dicts of `mock_auth_service.py`, gathered as
one state. `profiles` is keyed by the string form of the user id so the
shared association-list helpers apply; Python keys it by the `int` id,
which is in bijection with its decimal string. -/
structure MockState where
  users : List (String × UserRec)
  profiles : List (String × ProfileRec)
  otpCodes : List (String × String)
  refreshTokens : List (String × Nat)
deriving DecidableEq, Repr

/-- The bcrypt-looking constant hash stored for every mock user. -/
def mockHash : String :=
  "$2b$12$EixZaYVK1fsbw1ZfbX3OXePaWxn96p36WQoeG6Lruj3vjPGga31lW"

/-- Initial `MOCK_USERS` / `MOCK_PROFILES` / `MOCK_OTP_CODES` /
`MOCK_REFRESH_TOKENS`, in source insertion order. -/
def mockInitState : MockState :=
  { users :=
      [("test@example.com",
        { id := 1, username := "testuser", password_hash := mockHash,
          is_active := true, is_2fa_enabled := false,
          created_at := "2026-01-01T00:00:00+00:00", last_login := none }),
       ("admin@example.com",
        { id := 2, username := "admin", password_hash := mockHash,
          is_active := true, is_2fa_enabled := false,
          created_at := "2026-01-01T00:00:00+00:00", last_login := none }),
       ("2fa@example.com",
        { id := 3, username := "twofa", password_hash := mockHash,
          is_active := true, is_2fa_enabled := true,
          created_at := "2026-01-01T00:00:00+00:00", last_login := none })],
    profiles :=
      [("1", { email := "test@example.com", first_name := "Test",
               last_name := "User", age := 25, gender := "M" }),
       ("2", { email := "admin@example.com", first_name := "Admin",
               last_name := "User", age := 30, gender := "F" }),
       ("3", { email := "2fa@example.com", first_name := "TwoFA",
               last_name := "User", age := 28, gender := "M" })],
    otpCodes :=
      [("test@example.com", "123456"),
       ("admin@example.com", "654321"),
       ("2fa@example.com", "999999")],
    refreshTokens := [] }

/-- The username scan of `authenticate_user`: first entry of `MOCK_USERS`
(in insertion order) whose stored username lowercases to the identifier,
returned together with its email key. -/
def findByUsername (users : List (String × UserRec)) (identifierLower : String) :
    Option (String × UserRec) :=
  match users with
  | [] => none
  | (email, r) :: rest =>
      if pyLower r.username = identifierLower then some (email, r)
      else findByUsername rest identifierLower

/-- `MockAuthService.authenticate_user(identifier, password, ...)`.
The mock accepts any password: it lowercases the identifier, returns the
user when the identifier is a stored email key, otherwise scans for a
matching username, and raises
`AuthException(AUTH_INVALID_CREDENTIALS, "Incorrect username or password")`
only when neither lookup finds a user. `ip_address` and `user_agent` are
logged but unused and are omitted. -/
def authenticate_user (s : MockState) (identifier _password : String) :
    Except AuthException AuthUser :=
  let identifier_lower := pyLower identifier
  match lookupA s.users identifier_lower with
  | some user_data => .ok (userOfRec user_data (some identifier_lower))
  | none =>
      match findByUsername s.users identifier_lower with
      | some (email, user_data) => .ok (userOfRec user_data (some email))
      | none =>
          .error { code := .AUTH_INVALID_CREDENTIALS,
                   message := "Incorrect username or password" }

/-! ## JWT tokens

`create_access_token` / `create_pre_auth_token` encode a payload with the
configured secret via `jose.jwt.encode`; `verify_2fa_login` decodes with
`jose.jwt.decode`, which checks the signature and the `exp` claim
(rejecting when `exp < now`, any failure raising an exception the caller
turns into `None`). The embedding keeps the payload abstract and records
which key signed it; a token either is a well-formed signature under some
key or is malformed. -/

/-- The claims the mock service places in its JWTs. `sub` is optional to
cover arbitrary foreign tokens (`payload.get("sub")` may be absent). -/
structure JwtPayload where
  sub : Option String
  scope : Option String
  exp : Int
  iat : Int
  mock : Bool
deriving DecidableEq, Repr

/-- A JWT as received by a verifier: a payload signed under a key, or a
string that does not parse as a signed token at all. -/
inductive JwtToken where
  | signed (payload : JwtPayload) (key : String)
  | malformed (raw : String)
deriving DecidableEq, Repr

/-- The configuration the service reads from `get_settings()` (the config
module is outside the embedded sources; only the fields the mock uses
appear). Times are seconds. -/
structure Settings where
  jwt_secret_key : String
  jwt_expiration_hours : Int
deriving DecidableEq, Repr

/-- `jose.jwt.decode(token, key, algorithms)`: succeeds iff the token is
well formed, signed with the expected key and not expired
(`exp < now` raises `ExpiredSignatureError`); every failure mode is an
exception, embedded as `none`. -/
def jwtDecode (st : Settings) (now : Int) (tok : JwtToken) :
    Option JwtPayload :=
  match tok with
  | .malformed _ => none
  | .signed p k =>
      if k = st.jwt_secret_key then
        if p.exp < now then none else some p
      else none

/-- `MockAuthService.create_access_token(data)` with the default expiry:
payload `data` (here always `{"sub": sub}`) extended with
`exp = now + jwt_expiration_hours`, `iat = now`, `mock = True`, signed
with the configured secret. -/
def create_access_token (st : Settings) (now : Int) (sub : String) : JwtToken :=
  .signed { sub := some sub, scope := none,
            exp := now + st.jwt_expiration_hours * 3600, iat := now,
            mock := true } st.jwt_secret_key

/-- `MockAuthService.create_pre_auth_token(user_id)`: scope `pre_auth`,
expiry five minutes from now, signed with the configured secret. -/
def create_pre_auth_token (st : Settings) (now : Int) (user_id : Nat) : JwtToken :=
  .signed { sub := some (toString user_id), scope := some "pre_auth",
            exp := now + 5 * 60, iat := now, mock := true } st.jwt_secret_key

/-- The user-by-id scan shared by `verify_2fa_login` and
`refresh_access_token`: first value of `MOCK_USERS` (in insertion order)
whose id matches. -/
def findById (users : List (String × UserRec)) (uid : Nat) : Option UserRec :=
  match users with
  | [] => none
  | (_, r) :: rest => if r.id = uid then some r else findById rest uid

/-- `MockAuthService.verify_2fa_login(pre_auth_token, code)`: decode the
token (any decode failure, including `int(sub)` failing, is caught and
yields `None`); reject unless the scope claim is exactly `pre_auth`; find
the user by id; compare `code` against `MOCK_OTP_CODES` for the profile
email (default `"123456"`); return `User(**user_data)` on match, `None`
otherwise. -/
def verify_2fa_login (st : Settings) (s : MockState) (now : Int)
    (pre_auth_token : JwtToken) (code : String) : Option AuthUser :=
  match jwtDecode st now pre_auth_token with
  | none => none
  | some payload =>
      match payload.sub.bind strToNat with
      | none => none
      | some user_id =>
          if payload.scope ≠ some "pre_auth" then none
          else
            match findById s.users user_id with
            | none => none
            | some user_data =>
                let email :=
                  ((lookupA s.profiles (toString user_id)).map
                    (fun p => p.email)).getD ""
                let expected_code := (lookupA s.otpCodes email).getD "123456"
                if code = expected_code then some (userOfRec user_data none)
                else none

/-- The fields of `UserCreate` that `register_user` reads (`password` is
present on the schema but never consulted by the mock). -/
structure UserCreate where
  username : String
  email : String
  password : String
  first_name : String
  last_name : String
  age : Nat
  gender : String
deriving DecidableEq, Repr

/-- `MockAuthService.register_user(user_data)`: assigns
`new_user_id = len(MOCK_USERS) + 1`, stores a fresh record under the
lowercased email (replacing any record already there), stores the profile
under the id, and unconditionally returns
`(True, user, "User registered successfully (Mock)")` with
`user.email = user_data.email`. No uniqueness check is performed. -/
def register_user (s : MockState) (user_data : UserCreate) :
    (Bool × AuthUser × String) × MockState :=
  let new_user_id := s.users.length + 1
  let user_rec : UserRec :=
    { id := new_user_id, username := user_data.username,
      password_hash := mockHash, is_active := true,
      is_2fa_enabled := false,
      created_at := "2026-01-01T00:00:00+00:00", last_login := none }
  let users' := setKey s.users (pyLower user_data.email) user_rec
  let profiles' := setKey s.profiles (toString new_user_id)
      { email := user_data.email, first_name := user_data.first_name,
        last_name := user_data.last_name, age := user_data.age,
        gender := user_data.gender }
  ((true, userOfRec user_rec (some user_data.email),
    "User registered successfully (Mock)"),
   { s with users := users', profiles := profiles' })

/-- `MockAuthService.create_refresh_token(user_id)`: the fresh random
string from `secrets.token_urlsafe(32)` is supplied by the caller as
`token`; the mapping `token -> user_id` is stored and the token
returned. -/
def create_refresh_token (s : MockState) (token : String) (user_id : Nat) :
    String × MockState :=
  (token, { s with refreshTokens := setKey s.refreshTokens token user_id })

/-- `MockAuthService.refresh_access_token(refresh_token)`: look the token
up in `MOCK_REFRESH_TOKENS` (`if not user_id` also fires on a stored id
of 0); find the user by id; create a new access token and a new refresh
token (mapping inserted), then delete the old mapping; raise
`ValueError("Invalid refresh token")` on a missing mapping and
`ValueError("User not found")` when the id matches no user. `fresh` is
the random string the nested `create_refresh_token` call draws. -/
def refresh_access_token (st : Settings) (s : MockState) (now : Int)
    (fresh : String) (refresh_token : String) :
    Except String ((JwtToken × String) × MockState) :=
  match lookupA s.refreshTokens refresh_token with
  | none => .error "Invalid refresh token"
  | some user_id =>
      if user_id = 0 then .error "Invalid refresh token"
      else
        match findById s.users user_id with
        | none => .error "User not found"
        | some _ =>
            let access_token := create_access_token st now (toString user_id)
            let created := create_refresh_token s fresh user_id
            let new_refresh_token := created.1
            let s1 := created.2
            let s2 :=
              { s1 with refreshTokens := delKey s1.refreshTokens refresh_token }
            .ok ((access_token, new_refresh_token), s2)

/-- `MockAuthService.complete_password_reset(email, otp_code, new_password)`:
compare `otp_code` to `MOCK_OTP_CODES.get(email.lower(), "123456")` and
return the verdict. No state is read besides `MOCK_OTP_CODES` and nothing
is written — the returned state is the input state, matching the absence
of any assignment in the source. -/
def complete_password_reset (s : MockState) (email otp_code _new_password : String) :
    Bool × MockState :=
  let expected_code := (lookupA s.otpCodes (pyLower email)).getD "123456"
  (otp_code = expected_code, s)

/-! ## Audit service

`app.services.audit_service.AuditService.log_event` is exercised by
`tests/test_audit_service.py` but its module is not among the sources, so
its redaction and truncation steps are modelled from the specification. -/

/-- Modelled from the spec: the denylist of sensitive detail keys the
Audit Service redacts — the spec names "password", "secret", "code" and
"token" as the examples, and these are the keys exercised by
`tests/test_audit_service.py`. -/
def SENSITIVE_KEYS : List String := ["password", "secret", "code", "token"]

/-- Modelled from the spec: `AuditService.log_event` redacts any key of
`details` matching the denylist before serializing, leaving the other
keys in place (the test asserts `secret` absent and `status` present in
the stored blob). Details are an ordered string-to-string mapping; the
JSON serialization of the surviving pairs is not modelled. -/
def redact_details (details : List (String × String)) :
    List (String × String) :=
  details.filter (fun kv => ¬ kv.1 ∈ SENSITIVE_KEYS)

/-- Modelled from the spec: the fixed maximum stored length of
`userAgent`. -/
def MAX_USER_AGENT_LEN : Nat := 255

/-- Modelled from the spec: `AuditService.log_event` truncates an
oversize `userAgent` to the fixed maximum length, appending the marker
`"..."` when cut (the test asserts the stored value has length at most
255 and ends with `"..."`), and stores a short one unchanged. -/
def truncate_user_agent (ua : String) : String :=
  if MAX_USER_AGENT_LEN < ua.length then
    String.mk (ua.data.take (MAX_USER_AGENT_LEN - 3)) ++ "..."
  else ua


/-- The initial mock state extended with a deactivated user, used to
exhibit the behavior of `authenticate_user` on an `is_active = false`
account. -/
def stateWithInactiveUser : MockState :=
  { mockInitState with
      users := mockInitState.users ++
        [("inactive@example.com",
          { id := 4, username := "sleeper", password_hash := mockHash,
            is_active := false, is_2fa_enabled := false,
            created_at := "2026-01-01T00:00:00+00:00",
            last_login := none })] }

/-- A concrete settings value (an arbitrary signing secret and a 1-hour
access-token lifetime) used to instantiate the parameterized theorems on
closed inputs. -/
def testSettings : Settings :=
  { jwt_secret_key := "secret-key", jwt_expiration_hours := 1 }

/-! ## Dictionary lemmas -/

theorem lookupA_setKey_self {α : Type} (m : List (String × α)) (k : String)
    (v : α) : lookupA (setKey m k v) k = some v := by
  induction m with
  | nil => simp [setKey, lookupA]
  | cons kv rest ih =>
      obtain ⟨k', v'⟩ := kv
      by_cases h : k' = k <;> simp [setKey, lookupA, h, ih]

theorem lookupA_setKey_ne {α : Type} (m : List (String × α)) (k k' : String)
    (v : α) (h : k' ≠ k) : lookupA (setKey m k v) k' = lookupA m k' := by
  induction m with
  | nil => simp [setKey, lookupA, Ne.symm h]
  | cons kv rest ih =>
      obtain ⟨k₀, v₀⟩ := kv
      by_cases h0 : k₀ = k
      · subst h0
        simp [setKey, lookupA, Ne.symm h]
      · by_cases h1 : k₀ = k' <;> simp [setKey, lookupA, h0, h1, h, ih]

theorem lookupA_delKey_self {α : Type} (m : List (String × α)) (k : String) :
    lookupA (delKey m k) k = none := by
  induction m with
  | nil => rfl
  | cons kv rest ih =>
      obtain ⟨k₀, v₀⟩ := kv
      by_cases h : k₀ = k
      · simpa [delKey, h] using ih
      · simpa [delKey, lookupA, h] using ih

theorem lookupA_delKey_ne {α : Type} (m : List (String × α)) (k k' : String)
    (h : k' ≠ k) : lookupA (delKey m k) k' = lookupA m k' := by
  induction m with
  | nil => rfl
  | cons kv rest ih =>
      obtain ⟨k₀, v₀⟩ := kv
      by_cases h0 : k₀ = k
      · simpa [delKey, lookupA, h0, Ne.symm h] using ih
      · by_cases h1 : k₀ = k'
        · simp [delKey, lookupA, h0, h1, h]
        · simpa [delKey, lookupA, h0, h1, h] using ih

/-! ## Claims about the rate limiter -/

/-- Claim C1. `RateLimiter.is_rate_limited` implements the specified
sliding window: the check reports limited exactly when the number of
recorded timestamps for the key still inside the trailing
`window_seconds` has reached `max_requests`; a non-limited check reports
wait 0 and appends the current timestamp to the surviving ones; a call
made once the window has elapsed past every recorded timestamp is never
limited (for a limiter admitting at least one request); and concretely
for `login_limiter` (max 10, window 60s) the 11th call within 60s on one
key is limited while a call after the window has elapsed past all ten is
not. -/
theorem rate_limiter_sliding_window (rl : RateLimiter) (now : Int)
    (key : String) :
    ((is_rate_limited rl now key).1.1 = true ↔
      rl.max_requests ≤ validCount rl now key) ∧
    ((is_rate_limited rl now key).1.1 = false →
      (is_rate_limited rl now key).1.2 = 0 ∧
      lookupA (is_rate_limited rl now key).2.cache key =
        some ((((lookupA rl.cache key).getD []).filter
          (fun ts => now - ts < (rl.window_seconds : Int))) ++ [now])) ∧
    ((∀ ts ∈ (lookupA rl.cache key).getD [],
        (rl.window_seconds : Int) ≤ now - ts) →
      0 < rl.max_requests → (is_rate_limited rl now key).1.1 = false) ∧
    (is_rate_limited
      (runCalls login_limiter
        ([0, 1, 2, 3, 4, 5, 6, 7, 8, 9].map (fun i => ((i : Int), "k"))))
      30 "k").1.1 = true ∧
    (is_rate_limited
      (runCalls login_limiter
        ([0, 1, 2, 3, 4, 5, 6, 7, 8, 9].map (fun i => ((i : Int), "k"))))
      100 "k").1.1 = false := by
  refine ⟨?_, ?_, ?_, by decide, by decide⟩
  · by_cases hc : rl.max_requests ≤ validCount rl now key <;>
      · unfold validCount at hc
        simp [is_rate_limited, validCount, hc]
  · intro hfalse
    by_cases hc : rl.max_requests ≤ validCount rl now key
    · unfold validCount at hc
      simp [is_rate_limited, hc] at hfalse
    · unfold validCount at hc
      simp [is_rate_limited, hc, lookupA_setKey_self]
  · intro hstale hpos
    have hnil : (((lookupA rl.cache key).getD []).filter
        (fun ts => now - ts < (rl.window_seconds : Int))) = [] := by
      refine List.filter_eq_nil_iff.mpr ?_
      intro ts hts
      simpa using not_lt.mpr (hstale ts hts)
    have hc : ¬ rl.max_requests ≤ (((lookupA rl.cache key).getD []).filter
        (fun ts => now - ts < (rl.window_seconds : Int))).length := by
      rw [hnil]
      simp only [List.length_nil, Nat.le_zero]
      omega
    simp [is_rate_limited, hc]

/-- Witness for claim C1 at the concrete input `login_limiter`, time 0,
key `"k"`: the first call is not limited, reports wait 0, records the
timestamp, and the count characterization holds. -/
theorem rate_limiter_sliding_window_witness :
    (((is_rate_limited login_limiter 0 "k").1.1 = true ↔
      login_limiter.max_requests ≤ validCount login_limiter 0 "k") ∧
     ((is_rate_limited login_limiter 0 "k").1.2 = 0 ∧
      lookupA (is_rate_limited login_limiter 0 "k").2.cache "k" =
        some ((((lookupA login_limiter.cache "k").getD []).filter
          (fun ts => (0 : Int) - ts < (login_limiter.window_seconds : Int)))
            ++ [0])) ∧
     (is_rate_limited login_limiter 0 "k").1.1 = false) :=
  ⟨(rate_limiter_sliding_window login_limiter 0 "k").1,
   (rate_limiter_sliding_window login_limiter 0 "k").2.1 (by decide),
   (rate_limiter_sliding_window login_limiter 0 "k").2.2.1
     (by intro ts hts; simp [login_limiter, lookupA] at hts) (by decide)⟩

/-- Claim C10. A check that reports limited leaves the limiter state —
the timestamp lists of the checked key and of every other key — exactly
as it was: the current timestamp is recorded only on non-limited
checks. -/
theorem rate_limited_check_frame (rl : RateLimiter) (now : Int) (key : String)
    (h : (is_rate_limited rl now key).1.1 = true) :
    (is_rate_limited rl now key).2 = rl := by
  by_cases hc : rl.max_requests ≤ (((lookupA rl.cache key).getD []).filter
      (fun ts => now - ts < (rl.window_seconds : Int))).length
  · simp [is_rate_limited, hc]
  · simp [is_rate_limited, hc] at h

/-- Witness for claim C10: a saturated one-request limiter at a concrete
instant is limited and its state survives the check unchanged. -/
theorem rate_limited_check_frame_witness :
    (is_rate_limited ⟨1, 60, [("k", [5])]⟩ 10 "k").2 =
      (⟨1, 60, [("k", [5])]⟩ : RateLimiter) :=
  rate_limited_check_frame ⟨1, 60, [("k", [5])]⟩ 10 "k" (by decide)

/-! ## Claims about one-time-code verification (`complete_password_reset`) -/

/-- Counterexample to claim C2 (an OTP verified once can never verify
successfully again). On the initial mock state, completing a password
reset for `test@example.com` with code `123456` succeeds, and repeating
the identical verification on the resulting state succeeds again. -/
theorem otp_reverifies_after_success :
    (complete_password_reset mockInitState "test@example.com" "123456"
      "NewPass1").1 = true ∧
    (complete_password_reset
      (complete_password_reset mockInitState "test@example.com" "123456"
        "NewPass1").2
      "test@example.com" "123456" "NewPass2").1 = true := by
  decide

/-- Claim C2 as amended. `complete_password_reset` never marks a code
used and never mutates any state: it succeeds exactly when the candidate
equals the code stored for the lowercased email (default `"123456"`),
independent of any earlier verification, so the identical code verifies
successfully arbitrarily often; a mismatch likewise returns failure
without mutating state. -/
theorem otp_verification_is_stateless (s : MockState)
    (email otp_code new_password : String) :
    complete_password_reset s email otp_code new_password =
      (decide (otp_code = (lookupA s.otpCodes (pyLower email)).getD "123456"),
       s) := by
  simp [complete_password_reset]

/-! ## Claims about login (`authenticate_user`) -/

/-- Counterexample to claim C4 (login with a password that does not match
the stored hash fails with `INVALID_CREDENTIALS`). Two different
passwords — at most one of which can match the single stored hash — both
authenticate `testuser` successfully on the initial mock state. -/
theorem login_ignores_password :
    (authenticate_user mockInitState "testuser" "wrong-password-a").isOk
      = true ∧
    (authenticate_user mockInitState "testuser" "wrong-password-b").isOk
      = true := by
  decide

/-- Claim C4 as amended. The mock validates no password: for every state,
identifier and password, the outcome is the outcome for the empty
password, and login fails — always with `AUTH_INVALID_CREDENTIALS` —
exactly when the lowercased identifier is neither a stored email key nor
the lowercase of a stored username; any password for a known identifier
succeeds. -/
theorem login_succeeds_iff_identifier_known (s : MockState)
    (identifier password : String) :
    authenticate_user s identifier password =
      authenticate_user s identifier "" ∧
    ((∃ e, authenticate_user s identifier password = .error e ∧
        e.code = .AUTH_INVALID_CREDENTIALS) ↔
      lookupA s.users (pyLower identifier) = none ∧
      findByUsername s.users (pyLower identifier) = none) := by
  constructor
  · rfl
  · unfold authenticate_user
    cases h1 : lookupA s.users (pyLower identifier) with
    | some r => simp [h1]
    | none =>
        cases h2 : findByUsername s.users (pyLower identifier) with
        | some er => simp [h1, h2]
        | none => simp [h1, h2]

/-! ## Claims about registration (`register_user`) -/

/-- Counterexample to claim C5 (registration rejects a taken username or
email and never replaces an existing record). Registering the already
registered email `test@example.com` under the username `hacker` reports
success rather than `EMAIL_TAKEN`, and the stored record for that email
is replaced — its username changes from `testuser` to `hacker`; a second
registration then reuses id 4 for a different email even though a user
with id 4 already exists. -/
theorem register_overwrites_existing_user :
    (lookupA mockInitState.users "test@example.com").map
        (fun r => r.username) = some "testuser" ∧
    (register_user mockInitState
      { username := "hacker", email := "test@example.com", password := "p",
        first_name := "H", last_name := "X", age := 20,
        gender := "M" }).1.1 = true ∧
    (lookupA (register_user mockInitState
      { username := "hacker", email := "test@example.com", password := "p",
        first_name := "H", last_name := "X", age := 20,
        gender := "M" }).2.users "test@example.com").map
        (fun r => (r.username, r.id)) = some ("hacker", 4) ∧
    (lookupA (register_user (register_user mockInitState
      { username := "hacker", email := "test@example.com", password := "p",
        first_name := "H", last_name := "X", age := 20,
        gender := "M" }).2
      { username := "other", email := "other@example.com", password := "p",
        first_name := "O", last_name := "Y", age := 21,
        gender := "F" }).2.users "other@example.com").map
        (fun r => r.id) = some 4 := by
  decide

/-- Claim C5 as amended. `register_user` performs no uniqueness check: on
every state it reports success, stores a record with
`id = len(MOCK_USERS) + 1` under the lowercased email — replacing
whatever record that email already had, while every other email keeps its
record — and the new id coincides with an existing id whenever the email
was already registered. -/
theorem register_always_succeeds (s : MockState) (u : UserCreate) :
    (register_user s u).1.1 = true ∧
    (lookupA (register_user s u).2.users (pyLower u.email)).map
        (fun r => (r.username, r.id)) =
      some (u.username, s.users.length + 1) ∧
    (∀ e, e ≠ pyLower u.email →
      lookupA (register_user s u).2.users e = lookupA s.users e) := by
  refine ⟨rfl, ?_, ?_⟩
  · simp [register_user, lookupA_setKey_self]
  · intro e he
    simp [register_user, lookupA_setKey_ne _ _ _ _ he]

/-- Witness for the amended claim C5 at a concrete input: a fresh
registration on the initial state succeeds, stores the record under the
new email with id 4, and leaves the record of `admin@example.com`
untouched. -/
theorem register_always_succeeds_witness :
    (register_user mockInitState
      { username := "newbie", email := "New@Example.com", password := "p",
        first_name := "N", last_name := "B", age := 19,
        gender := "F" }).1.1 = true ∧
    (lookupA (register_user mockInitState
      { username := "newbie", email := "New@Example.com", password := "p",
        first_name := "N", last_name := "B", age := 19,
        gender := "F" }).2.users (pyLower "New@Example.com")).map
        (fun r => (r.username, r.id)) = some ("newbie", 4) ∧
    lookupA (register_user mockInitState
      { username := "newbie", email := "New@Example.com", password := "p",
        first_name := "N", last_name := "B", age := 19,
        gender := "F" }).2.users "admin@example.com" =
      lookupA mockInitState.users "admin@example.com" :=
  ⟨(register_always_succeeds mockInitState _).1,
   (register_always_succeeds mockInitState _).2.1,
   (register_always_succeeds mockInitState _).2.2 "admin@example.com"
     (by decide)⟩

/-- Counterexample to claim C6 (a deactivated user gets
`ACCOUNT_DEACTIVATED` before any 2FA branching). On a state holding a
user with `is_active = false`, login with that email succeeds outright,
returning the deactivated user object: no `ACCOUNT_DEACTIVATED` outcome
exists in the code. -/
theorem deactivated_user_logs_in :
    (lookupA stateWithInactiveUser.users "inactive@example.com").map
        (fun r => r.is_active) = some false ∧
    (authenticate_user stateWithInactiveUser "inactive@example.com"
        "any-password").isOk = true ∧
    (authenticate_user stateWithInactiveUser "inactive@example.com"
        "any-password").toOption.map (fun u => u.is_active) = some false := by
  decide

/-- Claim C6 as amended. `authenticate_user` never consults `is_active`
and has no `ACCOUNT_DEACTIVATED` outcome: whenever the lowercased
identifier is a stored email key, login succeeds and returns that stored
record (with the email attached) whatever its `is_active` flag; in
particular a deactivated user authenticates successfully. -/
theorem login_ignores_is_active (s : MockState) (identifier password : String)
    (r : UserRec) (h : lookupA s.users (pyLower identifier) = some r) :
    authenticate_user s identifier password =
      .ok (userOfRec r (some (pyLower identifier))) := by
  unfold authenticate_user
  simp [h]

/-- Witness for the amended claim C6: the deactivated user of
`stateWithInactiveUser` authenticates successfully. -/
theorem login_ignores_is_active_witness :
    authenticate_user stateWithInactiveUser "inactive@example.com" "pw" =
      .ok (userOfRec
        { id := 4, username := "sleeper", password_hash := mockHash,
          is_active := false, is_2fa_enabled := false,
          created_at := "2026-01-01T00:00:00+00:00", last_login := none }
        (some "inactive@example.com")) :=
  login_ignores_is_active stateWithInactiveUser "inactive@example.com" "pw"
    _ (by decide)

/-- Counterexample to claim C7 (with no unused code for the user, every
candidate code fails with `NotFound`). On the initial mock state no code
was ever issued for `ghost@example.com`, yet completing a password reset
for it with the default candidate `123456` succeeds. -/
theorem missing_otp_still_verifies :
    lookupA mockInitState.otpCodes "ghost@example.com" = none ∧
    (complete_password_reset mockInitState "ghost@example.com" "123456"
      "NewPass1").1 = true := by
  decide

/-- Claim C7 as amended. When no code is stored for the lowercased email,
`complete_password_reset` falls back to the default code `"123456"`:
verification succeeds exactly when the candidate equals it. There is no
`NotFound` outcome, so a candidate can verify even though no code was
ever issued. -/
theorem missing_otp_uses_default_code (s : MockState)
    (email otp_code new_password : String)
    (h : lookupA s.otpCodes (pyLower email) = none) :
    (complete_password_reset s email otp_code new_password).1 = true ↔
      otp_code = "123456" := by
  simp [complete_password_reset, h]

/-- Witness for the amended claim C7: on the initial state,
`ghost@example.com` has no stored code and the default candidate is
exactly the one that verifies. -/
theorem missing_otp_uses_default_code_witness :
    (complete_password_reset mockInitState "ghost@example.com" "123456"
      "NewPass1").1 = true ↔ "123456" = "123456" :=
  missing_otp_uses_default_code mockInitState "ghost@example.com" "123456"
    "NewPass1" (by decide)

/-! ## Claims about refresh tokens (`refresh_access_token`) -/

/-- Claim C3. Redeeming a refresh token succeeds at most once: the
redemption looks the token up and fails with `Invalid refresh token` when
the mapping is absent; a successful redemption returns the freshly drawn
token, maps it to the redeemed user id, removes the old mapping, touches
no other mapping, and leaves a state in which redeeming the same token
again always fails with `Invalid refresh token`. (`fresh ≠ tok` embeds
the freshness of the random replacement token.) -/
theorem refresh_token_single_use (st : Settings) (s : MockState)
    (now now2 : Int) (fresh fresh2 tok : String) :
    (lookupA s.refreshTokens tok = none →
      refresh_access_token st s now fresh tok =
        .error "Invalid refresh token") ∧
    (∀ a rt s', refresh_access_token st s now fresh tok = .ok ((a, rt), s') →
      fresh ≠ tok →
      ∃ uid, lookupA s.refreshTokens tok = some uid ∧ rt = fresh ∧
        lookupA s'.refreshTokens fresh = some uid ∧
        lookupA s'.refreshTokens tok = none ∧
        (∀ k, k ≠ tok → k ≠ fresh →
          lookupA s'.refreshTokens k = lookupA s.refreshTokens k) ∧
        refresh_access_token st s' now2 fresh2 tok =
          .error "Invalid refresh token") := by
  constructor
  · intro h
    simp [refresh_access_token, h]
  · intro a rt s' hok hne
    cases hl : lookupA s.refreshTokens tok with
    | none => simp [refresh_access_token, hl] at hok
    | some uid =>
        by_cases h0 : uid = 0
        · simp [refresh_access_token, hl, h0] at hok
        · cases hf : findById s.users uid with
          | none => simp [refresh_access_token, hl, h0, hf] at hok
          | some r =>
              simp [refresh_access_token, hl, h0, hf,
                create_refresh_token, create_access_token] at hok
              obtain ⟨⟨ha, hrt⟩, hs⟩ := hok
              subst hs
              refine ⟨uid, rfl, hrt.symm, ?_, ?_, ?_, ?_⟩
              · simpa using
                  (lookupA_delKey_ne _ tok fresh hne).trans
                    (lookupA_setKey_self s.refreshTokens fresh uid)
              · simpa using lookupA_delKey_self
                  (setKey s.refreshTokens fresh uid) tok
              · intro k hk1 hk2
                simpa using
                  (lookupA_delKey_ne _ tok k hk1).trans
                    (lookupA_setKey_ne s.refreshTokens fresh k uid hk2)
              · have hnone : lookupA
                    (delKey (setKey s.refreshTokens fresh uid) tok) tok =
                      none :=
                  lookupA_delKey_self _ tok
                simp [refresh_access_token, hnone]

/-- Witness for claim C3 at a concrete input: redeeming `t1` (mapped to
user 1) with fresh replacement `t2` succeeds, rotates the mapping, and a
replay of `t1` fails. -/
theorem refresh_token_single_use_witness :
    ∃ uid,
      lookupA ({ mockInitState with refreshTokens := [("t1", 1)] } :
        MockState).refreshTokens "t1" = some uid ∧
      "t2" = "t2" ∧
      lookupA ({ mockInitState with refreshTokens := [("t2", 1)] } :
        MockState).refreshTokens "t2" = some uid ∧
      lookupA ({ mockInitState with refreshTokens := [("t2", 1)] } :
        MockState).refreshTokens "t1" = none ∧
      (∀ k, k ≠ "t1" → k ≠ "t2" →
        lookupA ({ mockInitState with refreshTokens := [("t2", 1)] } :
          MockState).refreshTokens k =
        lookupA ({ mockInitState with refreshTokens := [("t1", 1)] } :
          MockState).refreshTokens k) ∧
      refresh_access_token testSettings
        ({ mockInitState with refreshTokens := [("t2", 1)] } : MockState)
        7 "t3" "t1" = .error "Invalid refresh token" :=
  (refresh_token_single_use testSettings
      { mockInitState with refreshTokens := [("t1", 1)] } 0 7 "t2" "t3"
      "t1").2
    (create_access_token testSettings 0 "1") "t2"
    { mockInitState with refreshTokens := [("t2", 1)] } rfl
    (by decide)

/-! ## Claims about 2FA pre-auth tokens (`verify_2fa_login`) -/

/-- Claim C8. Pre-auth token verification fails closed:
`verify_2fa_login` returns no user for a malformed token, for a token
signed with any key other than the configured secret, for an expired
token, and for any token whose scope claim differs from `pre_auth`,
whatever code is supplied; and every token minted by
`create_pre_auth_token` is signed with the configured secret, carries
scope `pre_auth` and expires exactly five minutes after issuance. -/
theorem pre_auth_verification_fails_closed (st : Settings) (s : MockState)
    (now : Int) (code : String) :
    (∀ raw, verify_2fa_login st s now (.malformed raw) code = none) ∧
    (∀ p k, k ≠ st.jwt_secret_key →
      verify_2fa_login st s now (.signed p k) code = none) ∧
    (∀ p k, p.exp < now →
      verify_2fa_login st s now (.signed p k) code = none) ∧
    (∀ p k, p.scope ≠ some "pre_auth" →
      verify_2fa_login st s now (.signed p k) code = none) ∧
    (∀ user_id, ∃ p, create_pre_auth_token st now user_id =
        .signed p st.jwt_secret_key ∧
      p.scope = some "pre_auth" ∧ p.exp = now + 5 * 60) := by
  refine ⟨?_, ?_, ?_, ?_, ?_⟩
  · intro raw
    simp [verify_2fa_login, jwtDecode]
  · intro p k hk
    simp [verify_2fa_login, jwtDecode, hk]
  · intro p k hexp
    by_cases hk : k = st.jwt_secret_key <;>
      simp [verify_2fa_login, jwtDecode, hk, hexp]
  · intro p k hscope
    by_cases hk : k = st.jwt_secret_key
    · by_cases hexp : p.exp < now
      · simp [verify_2fa_login, jwtDecode, hk, hexp]
      · cases hsub : p.sub.bind strToNat with
        | none => simp [verify_2fa_login, jwtDecode, hk, hexp, hsub]
        | some uid =>
            simp [verify_2fa_login, jwtDecode, hk, hexp, hsub, hscope]
    · simp [verify_2fa_login, jwtDecode, hk]
  · intro user_id
    exact ⟨_, rfl, rfl, rfl⟩

/-- Witness for claim C8 on closed inputs: a malformed token, a foreign
signature, an expired token and a wrong-scope token are each rejected on
the initial mock state, and the concrete minted pre-auth token for user 3
at time 0 has scope `pre_auth` and expiry 300. -/
theorem pre_auth_verification_fails_closed_witness :
    verify_2fa_login testSettings mockInitState 0 (.malformed "garbage")
      "999999" = none ∧
    verify_2fa_login testSettings mockInitState 0
      (.signed { sub := some "3", scope := some "pre_auth", exp := 300,
                 iat := 0, mock := true } "attacker-key") "999999" = none ∧
    verify_2fa_login testSettings mockInitState 400
      (.signed { sub := some "3", scope := some "pre_auth", exp := 300,
                 iat := 0, mock := true } "secret-key") "999999" = none ∧
    verify_2fa_login testSettings mockInitState 0
      (.signed { sub := some "3", scope := some "access", exp := 300,
                 iat := 0, mock := true } "secret-key") "999999" = none ∧
    (∃ p, create_pre_auth_token testSettings 0 3 =
        .signed p testSettings.jwt_secret_key ∧
      p.scope = some "pre_auth" ∧ p.exp = 0 + 5 * 60) :=
  ⟨(pre_auth_verification_fails_closed testSettings mockInitState 0
      "999999").1 "garbage",
   (pre_auth_verification_fails_closed testSettings mockInitState 0
      "999999").2.1 _ "attacker-key" (by decide),
   (pre_auth_verification_fails_closed testSettings mockInitState 400
      "999999").2.2.1 _ "secret-key" (by decide),
   (pre_auth_verification_fails_closed testSettings mockInitState 0
      "999999").2.2.2.1 _ "secret-key" (by decide),
   (pre_auth_verification_fails_closed testSettings mockInitState 0
      "999999").2.2.2.2 3⟩

/-! ## Claim about the audit service (modelled from the spec) -/

/-- Claim C9. The modelled audit logging redacts and truncates as
specified: every denylisted key is absent from the redacted details while
every non-denylisted entry survives, and the stored user agent is at most
255 characters, ending with the marker `"..."` (as a suffix appended to
the kept prefix) exactly on inputs that were longer. -/
theorem audit_redacts_and_truncates (details : List (String × String))
    (k v : String) (ua : String) :
    (k ∈ SENSITIVE_KEYS → (k, v) ∉ redact_details details) ∧
    ((k, v) ∈ details → k ∉ SENSITIVE_KEYS →
      (k, v) ∈ redact_details details) ∧
    (truncate_user_agent ua).length ≤ MAX_USER_AGENT_LEN ∧
    (MAX_USER_AGENT_LEN < ua.length →
      ∃ pre, truncate_user_agent ua = pre ++ "...") := by
  refine ⟨?_, ?_, ?_, ?_⟩
  · intro hk hmem
    rw [redact_details, List.mem_filter] at hmem
    simp at hmem
    exact hmem.2 hk
  · intro h1 h2
    rw [redact_details, List.mem_filter]
    exact ⟨h1, by simpa using h2⟩
  · unfold truncate_user_agent
    split
    · next h =>
        have hlen : (String.mk (ua.data.take (MAX_USER_AGENT_LEN - 3)) ++
            ("..." : String)).length =
            (ua.data.take (MAX_USER_AGENT_LEN - 3)).length + 3 := by
          rw [String.length_append]; rfl
        rw [hlen]
        have := List.length_take_le (MAX_USER_AGENT_LEN - 3) ua.data
        unfold MAX_USER_AGENT_LEN at *
        omega
    · next h =>
        unfold MAX_USER_AGENT_LEN at *
        omega
  · intro h
    exact ⟨String.mk (ua.data.take (MAX_USER_AGENT_LEN - 3)),
      by simp [truncate_user_agent, h]⟩

/-- Witness for claim C9 on the concrete test inputs: in details
`[("secret", "x"), ("status", "ok")]` the key `secret` is gone and
`status` survives, and a 300-character user agent is stored truncated. -/
theorem audit_redacts_and_truncates_witness :
    ("secret", "x") ∉ redact_details [("secret", "x"), ("status", "ok")] ∧
    ("status", "ok") ∈ redact_details [("secret", "x"), ("status", "ok")] ∧
    (truncate_user_agent (String.mk (List.replicate 300 'A'))).length ≤
      MAX_USER_AGENT_LEN ∧
    (∃ pre, truncate_user_agent (String.mk (List.replicate 300 'A')) =
      pre ++ "...") :=
  ⟨(audit_redacts_and_truncates [("secret", "x"), ("status", "ok")]
      "secret" "x" "").1 (by decide),
   (audit_redacts_and_truncates [("secret", "x"), ("status", "ok")]
      "status" "ok" "").2.1 (by decide) (by decide),
   (audit_redacts_and_truncates [] "" ""
      (String.mk (List.replicate 300 'A'))).2.2.1,
   (audit_redacts_and_truncates [] "" ""
      (String.mk (List.replicate 300 'A'))).2.2.2 (by
        show MAX_USER_AGENT_LEN < (List.replicate 300 'A').length
        rw [List.length_replicate]
        norm_num [MAX_USER_AGENT_LEN])⟩
